import Mathlib

/-!
Verification of the authentication and role-based authorization layer of the
Film Database Manager dashboard (src/app.py).

The stateful Streamlit script is shallowly embedded by explicit state
passing: the ambient session dictionary initialized at app.py:13-23 becomes
the SessionState structure, the external relational store becomes a Store
record of query oracles, and the externally visible calls made by a code path
are collected into an event trace so that temporal claims (ordering between
the audit call and session authentication) become statements about lists.
-/

namespace FilmDB

/-- Row of the DB_USERS relation as fetched by authenticate_user at
app.py:130-134 (columns user_id, username, full_name, role). -/
structure UserRow where
  user_id : Int
  username : String
  full_name : String
  role : String
deriving Repr, DecidableEq

/-- Streamlit session state fields initialized at app.py:13-23.  Fields that
Python sets to None are Option values here, with none for None. -/
structure SessionState where
  authenticated : Bool
  user_id : Option Int
  username : Option String
  user_role : Option String
  full_name : Option String
  db_host : String
  db_user : String
  db_password : String
  db_name : String
  db_connected : Bool
deriving Repr, DecidableEq

/-- Initial session state established at app.py:13-23 for a fresh session. -/
def initSession : SessionState :=
  { authenticated := false
    user_id := none
    username := none
    user_role := none
    full_name := none
    db_host := "localhost"
    db_user := "root"
    db_password := ""
    db_name := "filmdb"
    db_connected := false }

/-- Oracle for the external relational store.  fn_authenticate_user models
the SELECT at app.py:113-117: none stands for a failed or empty query result
(execute_query returned None or an empty list, or the returned user_id was
NULL), some c for a returned integer code.  db_users models the DB_USERS
lookup by id at app.py:130-134: none when no row is found or the query
fails. -/
structure Store where
  fn_authenticate_user : String → String → Option Int
  db_users : Int → Option UserRow

/-- check_permission (app.py:151-157), with the ambient session role passed
explicitly as its Option String value.  The Python membership tests on the
literal lists and the final fall-through return False are mirrored
directly. -/
def check_permission (user_role : Option String) (operation : String) : Bool :=
  if operation = "read" then
    true
  else if operation = "create" ∨ operation = "update" ∨ operation = "delete" then
    decide (user_role = some "admin" ∨ user_role = some "manager")
  else
    false

/-- Modelled from the spec: the fixed policy table of spec section 4.2,
transcribed cell by cell and written independently of check_permission so the
two can be compared. -/
def policy_table_spec (role operation : String) : Bool :=
  match role, operation with
  | "admin", "read" => true
  | "admin", "create" => true
  | "admin", "update" => true
  | "admin", "delete" => true
  | "manager", "read" => true
  | "manager", "create" => true
  | "manager", "update" => true
  | "manager", "delete" => true
  | "viewer", "read" => true
  | "viewer", "create" => false
  | "viewer", "update" => false
  | "viewer", "delete" => false
  | _, _ => false

/-- Sidebar navigation list built at app.py:246-258 as a function of the
session role: a base list for every role, five more entries for admin or
manager, and two more for admin, appended in source order. -/
def navigation_options (user_role : String) : List String :=
  let base := ["Dashboard", "Film Management", "Cast & Roles", "Analytics & Reports"]
  let withManager :=
    if user_role = "admin" ∨ user_role = "manager" then
      base ++ ["Director Operations", "Producer Analytics", "Crew Management",
               "Equipment & Locations", "Database Operations"]
    else base
  if user_role = "admin" then
    withManager ++ ["User Management", "Audit & Logs"]
  else withManager

end FilmDB

namespace FilmDB

/-- Result of requesting a page in the authenticated section: denied models
the st.error plus st.stop() path, which aborts the script run before any of
the page content is rendered or any of its store operations are issued;
content carries the page header that is rendered when access proceeds. -/
inductive PageRender where
  | denied
  | content (header : String)
deriving Repr, DecidableEq

/-- Dispatch of a directly requested page through the two admin-only guards
(app.py:268-271 for User Management and app.py:1254-1257 for Audit and Logs).
The guard re-checks the session role against admin independently of how the
page name was produced; any other page renders without these guards. -/
def page_dispatch (user_role : Option String) (page : String) : PageRender :=
  if page = "User Management" then
    if user_role ≠ some "admin" then PageRender.denied
    else PageRender.content "User Management"
  else if page = "Audit & Logs" then
    if user_role ≠ some "admin" then PageRender.denied
    else PageRender.content "Audit & Activity Logs"
  else
    PageRender.content page

/-- Externally visible calls and the session-authentication point of the
login flow, in program order.  credCheck is the fn_authenticate_user query
(app.py:113-117), fetchUser the DB_USERS lookup (app.py:130-134), updateLogin
the sp_update_login audit call (app.py:137), and sessionAuthenticated the
moment the login handler sets authenticated to true (app.py:205). -/
inductive Event where
  | credCheck (username password : String)
  | fetchUser (id : Int)
  | updateLogin (id : Int) (success : Bool) (origin : String)
  | sessionAuthenticated (id : Int)
deriving Repr, DecidableEq

/-- authenticate_user (app.py:111-140).  The result triple is (returned user
row, returned error message, trace of external calls made before returning).
Python truthiness of the fetched code makes a 0 or NULL code fall through to
the final Authentication failed return; the codes -1, -2 and -3 map to their
three messages; any other nonzero code reaches the DB_USERS lookup, and only
when that lookup finds a row is sp_update_login called and the row
returned. -/
def authenticate_user (store : Store) (username password : String) :
    Option UserRow × Option String × List Event :=
  match store.fn_authenticate_user username password with
  | none => (none, some "Authentication failed", [Event.credCheck username password])
  | some c =>
    if c = 0 then
      (none, some "Authentication failed", [Event.credCheck username password])
    else if c = -1 then
      (none, some "Invalid username or password", [Event.credCheck username password])
    else if c = -2 then
      (none, some "Account is locked due to multiple failed login attempts",
        [Event.credCheck username password])
    else if c = -3 then
      (none, some "Account is inactive", [Event.credCheck username password])
    else
      match store.db_users c with
      | some u =>
        (some u, none,
          [Event.credCheck username password, Event.fetchUser c,
           Event.updateLogin c true "127.0.0.1"])
      | none =>
        (none, some "Authentication failed",
          [Event.credCheck username password, Event.fetchUser c])

/-- Login form submit handler (app.py:200-213).  When both fields are
nonempty it runs authenticate_user; on a returned user row it installs all
four identity fields together with authenticated := true, which the trace
records as a sessionAuthenticated event after the calls authenticate_user
made; on failure the session is left unchanged. -/
def login_submit (store : Store) (s : SessionState) (username password : String) :
    SessionState × List Event :=
  if username ≠ "" ∧ password ≠ "" then
    match (authenticate_user store username password).1 with
    | some u =>
      ({ s with authenticated := true
                user_id := some u.user_id
                username := some u.username
                user_role := some u.role
                full_name := some u.full_name },
        (authenticate_user store username password).2.2
          ++ [Event.sessionAuthenticated u.user_id])
    | none => (s, (authenticate_user store username password).2.2)
  else (s, [])

/-- logout (app.py:142-149): clears the authenticated flag and the four
identity fields, leaving every other session field as it was. -/
def logout (s : SessionState) : SessionState :=
  { s with authenticated := false
           user_id := none
           username := none
           user_role := none
           full_name := none }

/-- Database-configuration edits available on the login page
(app.py:170-174 text inputs and the app.py:183-184 connection test), which
write only the five db fields of the session. -/
def set_db_config (s : SessionState) (host user password name : String)
    (connected : Bool) : SessionState :=
  { s with db_host := host
           db_user := user
           db_password := password
           db_name := name
           db_connected := connected }

/-- Session states reachable through the transitions the script performs on
the session record: the fresh session, database-configuration edits, a login
form submission against an arbitrary store, and logout. -/
inductive Reachable : SessionState → Prop
  | init : Reachable initSession
  | dbConfig {s : SessionState} (host user password name : String)
      (connected : Bool) :
      Reachable s → Reachable (set_db_config s host user password name connected)
  | login {s : SessionState} (store : Store) (username password : String) :
      Reachable s → Reachable (login_submit store s username password).1
  | logoutStep {s : SessionState} :
      Reachable s → Reachable (logout s)

/-- Helper for the Python substring operator: listStarts s t decides whether
t is an initial segment of s. -/
def listStarts : List Char → List Char → Bool
  | _, [] => true
  | [], _ :: _ => false
  | a :: as, b :: bs => a == b && listStarts as bs

/-- Helper for the Python substring operator: scans every suffix of the
second list for an initial segment equal to sub. -/
def listHasSub (sub : List Char) : List Char → Bool
  | [] => sub.isEmpty
  | a :: as => listStarts (a :: as) sub || listHasSub sub as

/-- The Python expression sub in s on strings: substring containment. -/
def strContains (s sub : String) : Bool :=
  listHasSub sub.data s.data

/-- Outcome of a stored-procedure call at the store boundary seen by
call_procedure (app.py:78-109): either a result set of rows (kept opaque as
strings) or a raised database error carrying a message. -/
inductive StoreReply where
  | ok (rows : List String)
  | fail (msg : String)
deriving Repr, DecidableEq

/-- call_procedure (app.py:78-109).  A store error is caught inside this
function, displayed to the user as a Procedure Error message, and None is
returned to the caller, so the caller never sees the exception; an empty
result set is replaced by a singleton success row (app.py:103).  The first
component is the value returned to the caller, the second the list of
messages displayed. -/
def call_procedure (reply : StoreReply) : Option (List String) × List String :=
  match reply with
  | StoreReply.ok rows =>
      (some (if rows.isEmpty then ["success"] else rows), [])
  | StoreReply.fail msg =>
      (none, ["Procedure Error: " ++ msg])

/-- Exception classifier of the create-user submit handler (app.py:322-328):
branches on substrings of the exception text to choose the displayed
message.  This classifier runs only if the call into the store raises in the
handler itself; store errors are already caught inside call_procedure. -/
def create_user_error_message (msg : String) : String :=
  if strContains msg "Only administrators can create users" then
    "Only administrators can create users"
  else if strContains msg "Duplicate entry" then
    "Username or email already exists"
  else
    "Error creating user: " ++ msg

/-- Exception classifier of the delete-user handler (app.py:452-456):
recognizes the last-active-administrator refusal by substring and otherwise
falls back to a generic message. -/
def delete_user_error_message (msg : String) : String :=
  if strContains msg "Cannot delete the last active administrator" then
    "Cannot delete the last active administrator"
  else
    "Error: " ++ msg

/-- Messages displayed by the create-user submit path (app.py:309-328) for a
given store reply, after the local field validations have passed: the
sp_create_user call goes through call_procedure, which displays store errors
itself and returns None, so the success message is shown only for a non-None
result. -/
def create_user_submit (reply : StoreReply) : List String :=
  match call_procedure reply with
  | (some _, msgs) => msgs ++ ["User created successfully"]
  | (none, msgs) => msgs

/-- Messages displayed by the delete-user path (app.py:443-456) for a given
store reply to sp_delete_user, mirroring create_user_submit. -/
def delete_user_submit (reply : StoreReply) : List String :=
  match call_procedure reply with
  | (some _, msgs) => msgs ++ ["User deleted successfully"]
  | (none, msgs) => msgs

/-- Concrete user row used to instantiate theorems about the login flow. -/
def demoUser : UserRow :=
  { user_id := 1
    username := "admin"
    full_name := "System Administrator"
    role := "admin" }

/-- Concrete store in which the documented default credentials resolve to
demoUser and every other pair yields the invalid-credentials code. -/
def demoStore : Store :=
  { fn_authenticate_user := fun u p =>
      if u = "admin" ∧ p = "Admin@123" then some 1 else some (-1)
    db_users := fun i => if i = 1 then some demoUser else none }

/-- Concrete inconsistent store: the credential check returns a positive id
for every pair but the DB_USERS relation has no rows. -/
def ghostStore : Store :=
  { fn_authenticate_user := fun _ _ => some 7
    db_users := fun _ => none }

/-- Recognizer for sp_update_login audit events in a trace. -/
def isUpdateLoginEvent : Event → Bool
  | Event.updateLogin _ _ _ => true
  | _ => false

/-- Whether a trace contains an sp_update_login audit call. -/
def hasUpdateLogin (tr : List Event) : Bool :=
  tr.any isUpdateLoginEvent

/-- The login submit handler either leaves the session untouched or marks it
authenticated; shared case split used by the invariant proofs. -/
theorem login_submit_cases (store : Store) (s : SessionState) (un pw : String) :
    (login_submit store s un pw).1 = s ∨
    (login_submit store s un pw).1.authenticated = true := by
  unfold login_submit
  split
  · split
    · right; rfl
    · left; rfl
  · left; rfl

/-- C1: for every role of the policy table and every operation in read,
create, update, delete, check_permission returns exactly the boolean of the
spec section 4.2 table, transcribed as policy_table_spec; check_permission is
a total pure Lean function of the role and operation, so it consults no other
state and cannot fail on any such pair. -/
theorem check_permission_matches_policy_table :
    (["admin", "manager", "viewer"].all fun r =>
      ["read", "create", "update", "delete"].all fun o =>
        check_permission (some r) o == policy_table_spec r o) = true := by
  decide

/-- C4: navigation_options is a deterministic role-indexed mapping producing
exactly the three ordered menus of the spec; the viewer menu omits User
Management and Audit and Logs, and each menu is contained in the next
(viewer in manager, manager in admin), stated with Boolean membership. -/
theorem navigation_options_exact :
    navigation_options "viewer" =
      ["Dashboard", "Film Management", "Cast & Roles", "Analytics & Reports"]
  ∧ navigation_options "manager" =
      ["Dashboard", "Film Management", "Cast & Roles", "Analytics & Reports",
       "Director Operations", "Producer Analytics", "Crew Management",
       "Equipment & Locations", "Database Operations"]
  ∧ navigation_options "admin" =
      ["Dashboard", "Film Management", "Cast & Roles", "Analytics & Reports",
       "Director Operations", "Producer Analytics", "Crew Management",
       "Equipment & Locations", "Database Operations",
       "User Management", "Audit & Logs"]
  ∧ (navigation_options "viewer").contains "User Management" = false
  ∧ (navigation_options "viewer").contains "Audit & Logs" = false
  ∧ ((navigation_options "viewer").all
      fun p => (navigation_options "manager").contains p) = true
  ∧ ((navigation_options "manager").all
      fun p => (navigation_options "admin").contains p) = true := by
  decide

/-- C9: check_permission is total and cannot raise; the read operation is
permitted for every role value, including none (an unset role) and
unrecognized role strings, and any operation outside read, create, update,
delete yields false for every role. -/
theorem check_permission_total (role : Option String) (op : String) :
    check_permission role "read" = true
  ∧ (op ≠ "read" → op ≠ "create" → op ≠ "update" → op ≠ "delete" →
      check_permission role op = false) := by
  constructor
  · simp [check_permission]
  · intro h1 h2 h3 h4
    simp [check_permission, h1, h2, h3, h4]

/-- Closed instance of check_permission_total: an unset role may read, and an
operation outside the four classes is refused for every role. -/
theorem check_permission_total_witness :
    check_permission none "read" = true ∧
    check_permission (some "admin") "drop" = false :=
  ⟨(check_permission_total none "drop").1,
   (check_permission_total (some "admin") "drop").2
     (by decide) (by decide) (by decide) (by decide)⟩

/-- C3: for every session role other than admin, directly requesting the User
Management page or the Audit and Logs page re-checks the role and is denied,
so the script stops before rendering any page content or issuing any of the
operations of those pages. -/
theorem admin_pages_guarded (user_role : Option String)
    (h : user_role ≠ some "admin") :
    page_dispatch user_role "User Management" = PageRender.denied
  ∧ page_dispatch user_role "Audit & Logs" = PageRender.denied := by
  constructor <;> simp [page_dispatch, h]

/-- Closed instance of admin_pages_guarded for a viewer session. -/
theorem admin_pages_guarded_witness :
    page_dispatch (some "viewer") "User Management" = PageRender.denied
  ∧ page_dispatch (some "viewer") "Audit & Logs" = PageRender.denied :=
  admin_pages_guarded (some "viewer") (by decide)

/-- C10: logout changes only the authentication fields; the five
database-configuration fields of the session survive a logout unchanged. -/
theorem logout_preserves_db_config (s : SessionState) :
    (logout s).db_host = s.db_host
  ∧ (logout s).db_user = s.db_user
  ∧ (logout s).db_password = s.db_password
  ∧ (logout s).db_name = s.db_name
  ∧ (logout s).db_connected = s.db_connected :=
  ⟨rfl, rfl, rfl, rfl, rfl⟩

/-- Closed instance of logout_preserves_db_config at the fresh session. -/
theorem logout_preserves_db_config_witness :
    (logout initSession).db_host = initSession.db_host
  ∧ (logout initSession).db_user = initSession.db_user
  ∧ (logout initSession).db_password = initSession.db_password
  ∧ (logout initSession).db_name = initSession.db_name
  ∧ (logout initSession).db_connected = initSession.db_connected :=
  logout_preserves_db_config initSession

/-- C2: authenticate_user maps each failure code of the external credential
check to exactly one outcome, with no user row returned: -1 to the
invalid-credentials message, -2 to the account-locked message, -3 to the
account-inactive message, and the three messages are pairwise distinct.  The
invalid-credentials outcome is one fixed message for every store, username
and password, so it cannot distinguish an unknown username from a wrong
password. -/
theorem authenticate_failure_codes (store : Store) (un pw : String) :
    ((store.fn_authenticate_user un pw = some (-1)) →
        (authenticate_user store un pw).1 = none ∧
        (authenticate_user store un pw).2.1 = some "Invalid username or password")
  ∧ ((store.fn_authenticate_user un pw = some (-2)) →
        (authenticate_user store un pw).1 = none ∧
        (authenticate_user store un pw).2.1 =
          some "Account is locked due to multiple failed login attempts")
  ∧ ((store.fn_authenticate_user un pw = some (-3)) →
        (authenticate_user store un pw).1 = none ∧
        (authenticate_user store un pw).2.1 = some "Account is inactive")
  ∧ "Invalid username or password" ≠
      "Account is locked due to multiple failed login attempts"
  ∧ "Invalid username or password" ≠ "Account is inactive"
  ∧ "Account is locked due to multiple failed login attempts" ≠
      "Account is inactive" := by
  refine ⟨?_, ?_, ?_, by decide, by decide, by decide⟩ <;>
    · intro h
      simp [authenticate_user, h]

/-- Closed instance of authenticate_failure_codes: in demoStore a wrong
password yields the invalid-credentials outcome. -/
theorem authenticate_failure_codes_witness :
    (authenticate_user demoStore "admin" "wrong").1 = none ∧
    (authenticate_user demoStore "admin" "wrong").2.1 =
      some "Invalid username or password" :=
  (authenticate_failure_codes demoStore "admin" "wrong").1 (by decide)

/-- C7: when the credential check returns a positive id but the DB_USERS
lookup for that id finds no row, authenticate_user returns no user row and
the generic failure message, and the login handler leaves every session
unchanged, so the inconsistent store is treated as a failure rather than a
success. -/
theorem authenticate_inconsistent_store (store : Store) (un pw : String)
    (c : Int) (hres : store.fn_authenticate_user un pw = some c)
    (hpos : 0 < c) (hrow : store.db_users c = none) :
    (authenticate_user store un pw).1 = none
  ∧ (authenticate_user store un pw).2.1 = some "Authentication failed"
  ∧ ∀ s : SessionState, (login_submit store s un pw).1 = s := by
  have h0 : c ≠ 0 := by omega
  have h1 : c ≠ -1 := by omega
  have h2 : c ≠ -2 := by omega
  have h3 : c ≠ -3 := by omega
  have hA : authenticate_user store un pw =
      (none, some "Authentication failed",
        [Event.credCheck un pw, Event.fetchUser c]) := by
    simp [authenticate_user, hres, h0, h1, h2, h3, hrow]
  refine ⟨by rw [hA], by rw [hA], ?_⟩
  intro s
  rcases Decidable.em (un ≠ "" ∧ pw ≠ "") with hc | hc
  · simp [login_submit, hc, hA]
  · simp [login_submit, hc]

/-- Closed instance of authenticate_inconsistent_store on ghostStore. -/
theorem authenticate_inconsistent_store_witness :
    (authenticate_user ghostStore "x" "y").1 = none
  ∧ (login_submit ghostStore initSession "x" "y").1 = initSession :=
  ⟨(authenticate_inconsistent_store ghostStore "x" "y" 7
      (by decide) (by decide) (by decide)).1,
   (authenticate_inconsistent_store ghostStore "x" "y" 7
      (by decide) (by decide) (by decide)).2.2 initSession⟩

/-- C5: the user-management handlers surface distinct outcomes for the three
store refusals.  End to end, sp_create_user and sp_delete_user failures are
caught in call_procedure and surfaced verbatim as Procedure Error messages,
so a permission refusal, a duplicate username or email, and the
last-active-administrator refusal each display a distinct message; the
substring classifiers the handlers install for exceptions likewise map the
permission refusal, the duplicate-key refusal and the last-administrator
refusal to distinct messages, and any other message to a generic one. -/
theorem user_management_error_discrimination :
    create_user_submit (StoreReply.fail "Only administrators can create users") =
      ["Procedure Error: Only administrators can create users"]
  ∧ create_user_submit (StoreReply.fail "Duplicate entry admin for key username") =
      ["Procedure Error: Duplicate entry admin for key username"]
  ∧ delete_user_submit (StoreReply.fail "Cannot delete the last active administrator") =
      ["Procedure Error: Cannot delete the last active administrator"]
  ∧ create_user_submit (StoreReply.fail "Only administrators can create users") ≠
      create_user_submit (StoreReply.fail "Duplicate entry admin for key username")
  ∧ create_user_error_message "Only administrators can create users" =
      "Only administrators can create users"
  ∧ create_user_error_message "Duplicate entry admin for key username" =
      "Username or email already exists"
  ∧ create_user_error_message "Only administrators can create users" ≠
      create_user_error_message "Duplicate entry admin for key username"
  ∧ delete_user_error_message "Cannot delete the last active administrator" =
      "Cannot delete the last active administrator"
  ∧ (∀ msg : String,
      strContains msg "Cannot delete the last active administrator" = false →
      delete_user_error_message msg = "Error: " ++ msg) := by
  refine ⟨by decide, by decide, by decide, by decide, by decide, by decide,
    by decide, by decide, ?_⟩
  intro msg h
  simp [delete_user_error_message, h]

/-- Closed instance of user_management_error_discrimination: an unrecognized
store failure takes the generic branch of the delete handler. -/
theorem user_management_error_discrimination_witness :
    delete_user_error_message "Unknown failure" = "Error: Unknown failure" :=
  user_management_error_discrimination.2.2.2.2.2.2.2.2
    "Unknown failure" (by decide)

/-- C6: assuming the credential check answers within its documented domain (a
positive id or one of the codes -1, -2, -3), the sp_update_login audit call
appears in the trace of authenticate_user exactly when authentication
succeeds, that is, when the id is positive and the DB_USERS row is found; no
audit call is made on the three failure codes; and on the successful login
path the trace of the submit handler lists the audit call strictly before the
session is marked authenticated, so the call completes before
authenticate_user returns and before the session becomes authenticated. -/
theorem audit_call_iff_success (store : Store) (un pw : String) (c : Int)
    (hres : store.fn_authenticate_user un pw = some c)
    (hdom : 0 < c ∨ c = -1 ∨ c = -2 ∨ c = -3) :
    (hasUpdateLogin (authenticate_user store un pw).2.2 = true ↔
        0 < c ∧ (store.db_users c).isSome = true)
  ∧ ((c = -1 ∨ c = -2 ∨ c = -3) →
        hasUpdateLogin (authenticate_user store un pw).2.2 = false)
  ∧ (∀ (s : SessionState) (u : UserRow), 0 < c → store.db_users c = some u →
        un ≠ "" → pw ≠ "" →
        (login_submit store s un pw).2 =
          [Event.credCheck un pw, Event.fetchUser c,
           Event.updateLogin c true "127.0.0.1",
           Event.sessionAuthenticated u.user_id]) := by
  rcases hdom with hpos | hneg
  · have h0 : c ≠ 0 := by omega
    have h1 : c ≠ -1 := by omega
    have h2 : c ≠ -2 := by omega
    have h3 : c ≠ -3 := by omega
    cases hdb : store.db_users c with
    | none =>
      have hA : authenticate_user store un pw =
          (none, some "Authentication failed",
            [Event.credCheck un pw, Event.fetchUser c]) := by
        simp [authenticate_user, hres, h0, h1, h2, h3, hdb]
      refine ⟨?_, ?_, ?_⟩
      · rw [hA]
        simp [hasUpdateLogin, isUpdateLoginEvent]
      · intro hneg
        omega
      · intro s u _ hdb2 _ _
        exact absurd hdb2 (by simp)
    | some u =>
      have hA : authenticate_user store un pw =
          (some u, none,
            [Event.credCheck un pw, Event.fetchUser c,
             Event.updateLogin c true "127.0.0.1"]) := by
        simp [authenticate_user, hres, h0, h1, h2, h3, hdb]
      refine ⟨?_, ?_, ?_⟩
      · rw [hA]
        simp [hasUpdateLogin, isUpdateLoginEvent, hpos]
      · intro hneg
        omega
      · intro s u2 _ hdb2 hun hpw
        injection hdb2 with hu2
        subst hu2
        simp [login_submit, hA, hun, hpw]
  · have htr : (authenticate_user store un pw).2.2 = [Event.credCheck un pw] := by
      rcases hneg with h | h | h <;> subst h <;> simp [authenticate_user, hres]
    refine ⟨?_, ?_, ?_⟩
    · rw [htr]
      constructor
      · intro hfalse
        simp [hasUpdateLogin, isUpdateLoginEvent] at hfalse
      · rintro ⟨hc, -⟩
        omega
    · intro _
      rw [htr]
      simp [hasUpdateLogin, isUpdateLoginEvent]
    · intro s u hc _ _ _
      exact absurd hc (by omega)

/-- Closed instance of audit_call_iff_success: the default credentials on
demoStore produce the audit call, and the submit trace places it strictly
before the session-authentication point. -/
theorem audit_call_iff_success_witness :
    hasUpdateLogin (authenticate_user demoStore "admin" "Admin@123").2.2 = true
  ∧ (login_submit demoStore initSession "admin" "Admin@123").2 =
      [Event.credCheck "admin" "Admin@123", Event.fetchUser 1,
       Event.updateLogin 1 true "127.0.0.1",
       Event.sessionAuthenticated demoUser.user_id] :=
  ⟨(audit_call_iff_success demoStore "admin" "Admin@123" 1 (by decide)
      (Or.inl (by decide))).1.mpr (by decide),
   (audit_call_iff_success demoStore "admin" "Admin@123" 1 (by decide)
      (Or.inl (by decide))).2.2 initSession demoUser
      (by decide) (by decide) (by decide) (by decide)⟩

/-- C8: in every reachable session state, authenticated = false implies all
four identity fields are unset; the invariant holds at session creation, the
successful-login transition installs all identity fields together with the
authenticated flag in one state update, and logout clears the flag and all
four identity fields. -/
theorem session_identity_invariant :
    (∀ s : SessionState, Reachable s → s.authenticated = false →
        s.user_id = none ∧ s.username = none ∧ s.user_role = none ∧
        s.full_name = none)
  ∧ (initSession.authenticated = false ∧ initSession.user_id = none ∧
      initSession.username = none ∧ initSession.user_role = none ∧
      initSession.full_name = none)
  ∧ (∀ (store : Store) (s : SessionState) (un pw : String) (u : UserRow),
      (authenticate_user store un pw).1 = some u → un ≠ "" → pw ≠ "" →
        (login_submit store s un pw).1.authenticated = true ∧
        (login_submit store s un pw).1.user_id = some u.user_id ∧
        (login_submit store s un pw).1.username = some u.username ∧
        (login_submit store s un pw).1.user_role = some u.role ∧
        (login_submit store s un pw).1.full_name = some u.full_name)
  ∧ (∀ s : SessionState,
      (logout s).authenticated = false ∧ (logout s).user_id = none ∧
      (logout s).username = none ∧ (logout s).user_role = none ∧
      (logout s).full_name = none) := by
  refine ⟨?_, ⟨rfl, rfl, rfl, rfl, rfl⟩, ?_, fun s => ⟨rfl, rfl, rfl, rfl, rfl⟩⟩
  · intro s hs
    induction hs with
    | init =>
        intro _
        exact ⟨rfl, rfl, rfl, rfl⟩
    | dbConfig host user password name connected hr ih =>
        intro ha
        exact ih ha
    | login store username password hr ih =>
        rename_i s1
        intro ha
        rcases login_submit_cases store s1 username password with he | ht
        · rw [he] at ha ⊢
          exact ih ha
        · rw [ht] at ha
          exact absurd ha (by simp)
    | logoutStep hr ih =>
        intro _
        exact ⟨rfl, rfl, rfl, rfl⟩
  · intro store s un pw u hu hun hpw
    simp [login_submit, hu, hun, hpw]

/-- Closed instance of session_identity_invariant: the fresh session
satisfies the invariant, and the successful default login marks the session
authenticated. -/
theorem session_identity_invariant_witness :
    (initSession.user_id = none ∧ initSession.username = none ∧
      initSession.user_role = none ∧ initSession.full_name = none)
  ∧ (login_submit demoStore initSession "admin" "Admin@123").1.authenticated = true :=
  ⟨session_identity_invariant.1 initSession Reachable.init rfl,
   (session_identity_invariant.2.2.1 demoStore initSession "admin" "Admin@123"
      demoUser (by decide) (by decide) (by decide)).1⟩

end FilmDB
